import Mathlib

/-!
Verification development for the Home_Assistant recovery tooling
(`analyze_recovered_files.py`, the classifier, and `validate_yaml_files.py`,
the validator). The Python source is shallowly embedded below: file contents
are the permissively decoded strings the tools read, the filesystem walk is a
list of regular files, and the external YAML parser is an explicit parameter
of the validator. Every regular expression used by the tools is an
alternation of literal strings, modelled as substring tests.
-/

/-! ### String helpers -/

/-- Bool-valued prefix test on character lists. -/
def listPrefix : List Char → List Char → Bool
  | [], _ => true
  | _ :: _, [] => false
  | a :: as, b :: bs => a == b && listPrefix as bs

/-- Bool-valued infix (substring) test on character lists. -/
def listInfix (pat : List Char) : List Char → Bool
  | [] => pat.isEmpty
  | c :: rest => listPrefix pat (c :: rest) || listInfix pat rest

/-- `containsSub s pat` models the Python test `pat in s` / `re.search` of a
literal pattern against `s`. -/
def containsSub (s pat : String) : Bool :=
  listInfix pat.data s.data

/-- ASCII lowercasing, modelling `str.lower()` on the ASCII inputs the tools
compare against. -/
def toLowerStr (s : String) : String :=
  String.mk (s.data.map Char.toLower)

/-- `strTake s n` models `f.read(n)`: the first `n` characters of the
decoded content. -/
def strTake (s : String) (n : Nat) : String :=
  String.mk (s.data.take n)

/-- Number of newline characters, modelling `content.count(chr 10)`. -/
def countNl (s : String) : Nat :=
  s.data.count '\n'

/-- Whitespace as recognised by Python `str.strip()` and the regex class
for whitespace: tab, LF, VT, FF, CR, FS..US, space, NEL, NBSP, plus the
Unicode spaces U+1680, U+2000..U+200A, the line and paragraph separators
U+2028 and U+2029, U+202F, U+205F and U+3000. -/
def isPySpace (c : Char) : Bool :=
  let n := c.toNat
  (9 ≤ n && n ≤ 13) || (28 ≤ n && n ≤ 32) || n == 133 || n == 160 ||
  n == 0x1680 || (0x2000 ≤ n && n ≤ 0x200A) || n == 0x2028 || n == 0x2029 ||
  n == 0x202F || n == 0x205F || n == 0x3000

/-- ASCII letter, the character class a-zA-Z. -/
def isAsciiAlpha (c : Char) : Bool :=
  (65 ≤ c.toNat && c.toNat ≤ 90) || (97 ≤ c.toNat && c.toNat ≤ 122)

/-- `content.strip()`: drop leading and trailing whitespace. -/
def pyStrip (s : String) : String :=
  String.mk (((s.data.dropWhile isPySpace).reverse.dropWhile isPySpace).reverse)

/-! ### Classifier: `analyze_recovered_files.py`, class `HARecoveryAnalyzer` -/

/-- `Path(name).suffix`: the extension from the last dot, empty when the
dot is the first or last character or absent. -/
def suffixOf (name : String) : String :=
  let cs := name.data
  let idxs := (List.range cs.length).filter fun i => cs.getD i ' ' == '.'
  match idxs.getLast? with
  | none => ""
  | some i => if 0 < i && i + 1 < cs.length then String.mk (cs.drop i) else ""

/-- The `text_extensions` set of `scan_files`. -/
def text_extensions : List String :=
  [".txt", ".yaml", ".yml", ".json", ".conf", ".cfg", ".py"]

/-- The guard `file_path.suffix.lower() in text_extensions or
file_path.suffix == ()` of `scan_files` (second disjunct: empty suffix). -/
def is_text_candidate (name : String) : Bool :=
  text_extensions.contains (toLowerStr (suffixOf name)) || (suffixOf name == "")

/-- Regex `configuration\.ya?ml` (IGNORECASE, applied to the lowercased
name) as an alternation of literals. -/
def pat_configuration (s : String) : Bool :=
  containsSub s "configuration.yaml" || containsSub s "configuration.yml"

/-- Regex `automations?\.ya?ml`. -/
def pat_automations (s : String) : Bool :=
  containsSub s "automation.yaml" || containsSub s "automation.yml" ||
  containsSub s "automations.yaml" || containsSub s "automations.yml"

/-- Regex `scenes?\.ya?ml`. -/
def pat_scenes (s : String) : Bool :=
  containsSub s "scene.yaml" || containsSub s "scene.yml" ||
  containsSub s "scenes.yaml" || containsSub s "scenes.yml"

/-- Regex `secrets?\.ya?ml`. -/
def pat_secrets (s : String) : Bool :=
  containsSub s "secret.yaml" || containsSub s "secret.yml" ||
  containsSub s "secrets.yaml" || containsSub s "secrets.yml"

/-- Regex `groups?\.ya?ml`. -/
def pat_groups (s : String) : Bool :=
  containsSub s "group.yaml" || containsSub s "group.yml" ||
  containsSub s "groups.yaml" || containsSub s "groups.yml"

/-- Regex `customize\.ya?ml`. -/
def pat_customize (s : String) : Bool :=
  containsSub s "customize.yaml" || containsSub s "customize.yml"

/-- Regex `known_devices\.ya?ml`. -/
def pat_known_devices (s : String) : Bool :=
  containsSub s "known_devices.yaml" || containsSub s "known_devices.yml"

/-- Regex `scripts?\.ya?ml`. -/
def pat_scripts (s : String) : Bool :=
  containsSub s "script.yaml" || containsSub s "script.yml" ||
  containsSub s "scripts.yaml" || containsSub s "scripts.yml"

/-- `self.ha_patterns`: the ordered filename patterns (dict insertion
order). -/
def ha_patterns : List (String × (String → Bool)) :=
  [("configuration", pat_configuration),
   ("automations", pat_automations),
   ("scenes", pat_scenes),
   ("secrets", pat_secrets),
   ("groups", pat_groups),
   ("customize", pat_customize),
   ("known_devices", pat_known_devices),
   ("scripts", pat_scripts)]

/-- Regex `homeassistant:` (MULTILINE flag is irrelevant: no anchors). -/
def cpat_homeassistant (s : String) : Bool :=
  containsSub s "homeassistant:"

/-- Regex `- alias:|trigger:|action:|condition:`. -/
def cpat_automation (s : String) : Bool :=
  containsSub s "- alias:" || containsSub s "trigger:" ||
  containsSub s "action:" || containsSub s "condition:"

/-- Regex `sensor:|platform:`. -/
def cpat_sensor (s : String) : Bool :=
  containsSub s "sensor:" || containsSub s "platform:"

/-- Regex `switch:|platform:`. -/
def cpat_switch (s : String) : Bool :=
  containsSub s "switch:" || containsSub s "platform:"

/-- Regex `light:|platform:`. -/
def cpat_light (s : String) : Bool :=
  containsSub s "light:" || containsSub s "platform:"

/-- Regex `device_tracker:`. -/
def cpat_device_tracker (s : String) : Bool :=
  containsSub s "device_tracker:"

/-- Regex `esphome|esp32|esp8266` with IGNORECASE. -/
def cpat_esp_device (s : String) : Bool :=
  containsSub (toLowerStr s) "esphome" || containsSub (toLowerStr s) "esp32" ||
  containsSub (toLowerStr s) "esp8266"

/-- Regex `integration:|component:`. -/
def cpat_integration (s : String) : Bool :=
  containsSub s "integration:" || containsSub s "component:"

/-- `self.ha_content_patterns`: the ordered content-signature patterns. -/
def ha_content_patterns : List (String × (String → Bool)) :=
  [("homeassistant", cpat_homeassistant),
   ("automation", cpat_automation),
   ("sensor", cpat_sensor),
   ("switch", cpat_switch),
   ("light", cpat_light),
   ("device_tracker", cpat_device_tracker),
   ("esp_device", cpat_esp_device),
   ("integration", cpat_integration)]

/-- First-match-wins scan over an ordered pattern list, modelling the
`for pattern_name, pattern in ...items(): if pattern.search(...)` loops. -/
def find_first (pats : List (String × (String → Bool))) (s : String) :
    Option String :=
  match pats with
  | [] => none
  | (n, p) :: rest => if p s then some n else find_first rest s

/-- `HARecoveryAnalyzer.is_likely_ha_file`: filename patterns on the
lowercased name first, then content-signature patterns on the content read
from the file. A successful read is assumed (the content is given). -/
def is_likely_ha_file (name content : String) : Bool × String :=
  match find_first ha_patterns (toLowerStr name) with
  | some pname => (true, "filename_match_" ++ pname)
  | none =>
    match find_first ha_content_patterns content with
    | some pname => (true, "content_match_" ++ pname)
    | none => (false, "no_match")

/-- The MD5 hex digest is modelled abstractly as an injective function of
the content; only equality of digests is observable to the analyzer, and a
real digest is never the empty string. -/
def md5Hex (s : String) : String :=
  "md5-" ++ s

/-- `HARecoveryAnalyzer.get_file_hash`: hashing the readable content
succeeds (the failure branch returns `none` in the source and is modelled
by the `Option`). -/
def get_file_hash (content : String) : Option String :=
  some (md5Hex content)

/-- A regular file seen by the recursive walk: its path, base name
(`Path.name`), parent directory name (`Path.parent.name`), stat size, and
decoded content. -/
structure FSFile where
  path : String
  name : String
  subfolder : String
  size : Nat
  content : String
deriving Repr, DecidableEq

/-- The `file_info` dict built in `scan_files`. -/
structure FileInfo where
  path : String
  name : String
  size : Nat
  match_type : String
  hash : Option String
  subfolder : String
deriving Repr, DecidableEq

/-- An entry of `results[json_files]`. -/
structure JsonInfo where
  path : String
  name : String
  size : Nat
  subfolder : String
deriving Repr, DecidableEq

/-- An entry of `results[large_files]`. -/
structure LargeInfo where
  path : String
  size : Nat
deriving Repr, DecidableEq

/-- The mutable scan state: `self.results` plus the `file_count` and
`ha_count` counters of `scan_files`. `duplicates` is the defaultdict,
kept as a key-ordered association list. -/
structure ScanState where
  file_count : Nat
  ha_count : Nat
  ha_configs : List FileInfo
  automations : List FileInfo
  scenes : List FileInfo
  secrets : List FileInfo
  yaml_files : List FileInfo
  json_files : List JsonInfo
  duplicates : List (String × List FileInfo)
  large_files : List LargeInfo
deriving Repr, DecidableEq

/-- The empty state at the start of `scan_files`. -/
def initState : ScanState :=
  ⟨0, 0, [], [], [], [], [], [], [], []⟩

/-- The `file_info` record built for a positively classified file. -/
def mkInfo (f : FSFile) : FileInfo :=
  { path := f.path
    name := f.name
    size := f.size
    match_type := (is_likely_ha_file f.name (strTake f.content 2048)).snd
    hash := get_file_hash f.content
    subfolder := f.subfolder }

/-- The categorize-by-type chain of `scan_files` (substring tests on
`match_type`, in source order). -/
def bucketAdd (st : ScanState) (fi : FileInfo) : ScanState :=
  if containsSub fi.match_type "configuration" then
    { st with ha_configs := st.ha_configs ++ [fi] }
  else if containsSub fi.match_type "automation" then
    { st with automations := st.automations ++ [fi] }
  else if containsSub fi.match_type "scene" then
    { st with scenes := st.scenes ++ [fi] }
  else if containsSub fi.match_type "secret" then
    { st with secrets := st.secrets ++ [fi] }
  else
    { st with yaml_files := st.yaml_files ++ [fi] }

/-- `self.results[duplicates][hash].append(file_info)` on the defaultdict,
as an association-list update. -/
def dupInsert (d : List (String × List FileInfo)) (k : String)
    (fi : FileInfo) : List (String × List FileInfo) :=
  match d with
  | [] => [(k, [fi])]
  | (k2, l) :: rest =>
    if k2 == k then (k2, l ++ [fi]) :: rest else (k2, l) :: dupInsert rest k fi

/-- Lookup in the duplicates association list (a missing key reads as the
empty group, as in a defaultdict). -/
def lookupD (d : List (String × List FileInfo)) (k : String) :
    List FileInfo :=
  match d with
  | [] => []
  | (k2, l) :: rest => if k2 == k then l else lookupD rest k

/-- Python truthiness of `file_info[hash]`: not `None` and not empty. -/
def hashTruthy : Option String → Bool
  | none => false
  | some h => !(h == "")

/-- The key used for `self.results[duplicates][file_info[hash]]` (the
hash is known non-`None` on that branch). -/
def hashKey : Option String → String
  | none => ""
  | some h => h

/-- One iteration of the `for file_path in ...rglob` loop of
`HARecoveryAnalyzer.scan_files` for a regular file. -/
def scanStep (st : ScanState) (f : FSFile) : ScanState :=
  let st1 := { st with file_count := st.file_count + 1 }
  if 10 * 1024 * 1024 < f.size then
    { st1 with large_files := st1.large_files ++ [⟨f.path, f.size⟩] }
  else if is_text_candidate f.name then
    if (is_likely_ha_file f.name (strTake f.content 2048)).fst then
      let fi := mkInfo f
      let st2 := bucketAdd { st1 with ha_count := st1.ha_count + 1 } fi
      if hashTruthy fi.hash then
        { st2 with duplicates := dupInsert st2.duplicates (hashKey fi.hash) fi }
      else st2
    else if toLowerStr (suffixOf f.name) == ".json" then
      { st1 with json_files := st1.json_files ++ [⟨f.path, f.name, f.size, f.subfolder⟩] }
    else st1
  else st1

/-- The state after the whole walk of `scan_files`. -/
def scanFiles (files : List FSFile) : ScanState :=
  files.foldl scanStep initState

/-- A file reaches the positive-classification branch of the scan loop:
not over the large-file threshold, a text-candidate extension, and a
filename or content match. -/
def processedHA (f : FSFile) : Bool :=
  decide (f.size ≤ 10 * 1024 * 1024) && is_text_candidate f.name &&
    (is_likely_ha_file f.name (strTake f.content 2048)).fst

/-- `HARecoveryAnalyzer.scan_files` including its final success-rate
computation `ha_count/file_count*100`, which raises `ZeroDivisionError`
when no regular file was seen. The rate is used only for display and is
modelled with natural division. -/
def scan_files (files : List FSFile) : Except String (ScanState × Nat) :=
  let st := scanFiles files
  if st.file_count == 0 then
    Except.error "ZeroDivisionError: division by zero"
  else
    Except.ok (st, st.ha_count * 100 / st.file_count)

/-- Process exit code of the classifier `main` on an existing root: an
uncaught exception in `scan_files` terminates Python with a nonzero code. -/
def classifier_exit_code (files : List FSFile) : Nat :=
  match scan_files files with
  | Except.error _ => 1
  | Except.ok _ => 0

/-- The duplicate sets shown by `generate_report`: only groups with more
than one member. -/
def dupGroups (st : ScanState) : List (String × List FileInfo) :=
  st.duplicates.filter fun kv => decide (1 < kv.2.length)

/-- Descending-size comparison used by every
`sorted(..., key=lambda x: x[size], reverse=True)` over file records. -/
def fiGE (a b : FileInfo) : Prop := b.size ≤ a.size

instance : DecidableRel fiGE := fun a b => inferInstanceAs (Decidable (b.size ≤ a.size))

instance : IsTotal FileInfo fiGE := ⟨fun a b => (Nat.le_total b.size a.size).imp id id⟩

instance : IsTrans FileInfo fiGE := ⟨fun _ _ _ hab hbc => Nat.le_trans hbc hab⟩

/-- A stable sort by descending size, modelling Python `sorted` with
`reverse=True`. -/
def sortFI (l : List FileInfo) : List FileInfo :=
  List.insertionSort fiGE l

/-- `HARecoveryAnalyzer.save_file_list`: the lines of the prioritized
plain-text list, in source order. -/
def save_file_list (st : ScanState) : List String :=
  (sortFI st.ha_configs).map (fun fi => "HIGH_PRIORITY: " ++ fi.path) ++
  (sortFI st.automations).map (fun fi => "AUTOMATION: " ++ fi.path) ++
  (sortFI st.secrets).map (fun fi => "SECRETS: " ++ fi.path) ++
  (sortFI st.yaml_files).map (fun fi => "YAML: " ++ fi.path)

/-! ### Validator: `validate_yaml_files.py`, class `HAYAMLValidator` -/

/-- A key of a parsed mapping: either a string key or a key of another
type (the source tests `isinstance(key, str)`). -/
inductive YKey where
  | str (s : String)
  | other
deriving Repr, DecidableEq

/-- A parsed document as the validator observes it: a mapping (dict), a
sequence (list), or any other root (scalar, null, number...). -/
inductive Yaml where
  | m (pairs : List (YKey × Yaml))
  | l (items : List Yaml)
  | s (v : String)

/-- `self.corruption_patterns[0]`: regex class of non-printable control
bytes, code points 0-8, 11, 12, 14-31, 127-255 (the class does not reach
past the Latin-1 range). -/
def contains_nonprintable (content : String) : Bool :=
  content.data.any fun c =>
    let n := c.toNat
    n ≤ 8 || n == 11 || n == 12 || (14 ≤ n && n ≤ 31) || (127 ≤ n && n ≤ 255)

/-- `self.corruption_patterns[1]`: regex of only digits and whitespace
anchored at both ends, i.e. every character is a digit or whitespace. -/
def only_digits_space (content : String) : Bool :=
  content.data.all fun c => c.isDigit || isPySpace c

/-- `self.corruption_patterns[2]`: regex of no letters at all anchored at
both ends, i.e. no character is an ASCII letter. -/
def no_letters (content : String) : Bool :=
  content.data.all fun c => !(isAsciiAlpha c)

/-- `self.corruption_patterns`, in source order. -/
def corruption_patterns : List (String → Bool) :=
  [contains_nonprintable, only_digits_space, no_letters]

/-- `self.ha_sections`: the recognized-section vocabulary. -/
def ha_sections : List String :=
  ["homeassistant", "automation", "script", "scene", "sensor",
   "binary_sensor", "switch", "light", "climate", "cover",
   "device_tracker", "group", "input_boolean", "input_number",
   "input_select", "input_text", "timer", "counter", "zone"]

/-- The `found_sections` loop of `validate_file`: string keys whose
lowercasing is in the vocabulary, in key order. -/
def found_sections (pairs : List (YKey × Yaml)) : List String :=
  pairs.filterMap fun p =>
    match p.1 with
    | YKey.str k => if toLowerStr k ∈ ha_sections then some k else none
    | YKey.other => none

/-- The test `isinstance(item, dict) and (an alias key in item)` on a
sequence element. -/
def has_alias : Yaml → Bool
  | Yaml.m pairs =>
    pairs.any fun p =>
      match p.1 with
      | YKey.str s => s == "alias"
      | YKey.other => false
  | _ => false

/-- The per-file `result` dict of `HAYAMLValidator.validate_file`. -/
structure VResult where
  file : String
  valid : Bool
  error : Option String
  warnings : List String
  size : Nat
  lines : Nat
  ha_sections : List String
  likely_corrupted : Bool
deriving Repr, DecidableEq

/-- `HAYAMLValidator.validate_file` for a readable file, with the external
YAML parser passed explicitly. The corruption loop breaks on the first
matching pattern, and every branch of it appends the same single warning,
so its observable effect is the disjunction of the three patterns. -/
def validate_file (parse : String → Except String Yaml)
    (path content : String) : VResult :=
  let corrupt := corruption_patterns.any fun p => p content
  let r : VResult :=
    { file := path
      valid := false
      error := none
      warnings := if corrupt then ["Contains suspicious patterns - may be corrupted"] else []
      size := content.length
      lines := countNl content + 1
      ha_sections := []
      likely_corrupted := corrupt }
  if (pyStrip content).length < 10 then
    { r with warnings := r.warnings ++ ["File too small to be meaningful"] }
  else
    match parse content with
    | Except.ok (Yaml.m pairs) =>
      let found := found_sections pairs
      { r with
        valid := true
        ha_sections := found
        warnings := r.warnings ++
          (if found.isEmpty then ["No recognized HA sections found"] else []) }
    | Except.ok (Yaml.l items) =>
      if items.any has_alias then
        { r with valid := true, ha_sections := ["automation_list"] }
      else
        { r with
          valid := true
          warnings := r.warnings ++ ["List format - check if valid HA structure"] }
    | Except.ok (Yaml.s _) => { r with valid := true }
    | Except.error e =>
      { r with
        error := some ("YAML parsing error: " ++ e)
        warnings := r.warnings ++
          (if containsSub e "found character" then
            ["Invalid characters - may be partially corrupted"]
          else if containsSub e "expected" then
            ["Syntax error - check indentation and structure"]
          else []) }

/-- The accumulated `self.results` of the validator. -/
structure VResults where
  valid : List VResult
  invalid : List VResult
  warnings : List (String × String)
deriving Repr, DecidableEq

/-- `HAYAMLValidator.validate_files` over (path, content) pairs. -/
def validate_files (parse : String → Except String Yaml)
    (inputs : List (String × String)) : VResults :=
  inputs.foldl
    (fun acc pc =>
      let r := validate_file parse pc.1 pc.2
      let acc :=
        if r.valid then { acc with valid := acc.valid ++ [r] }
        else { acc with invalid := acc.invalid ++ [r] }
      if r.warnings.isEmpty then acc
      else { acc with warnings := acc.warnings ++ r.warnings.map (fun w => (r.file, w)) })
    ⟨[], [], []⟩

/-- Descending-size comparison for validation results. -/
def vGE (a b : VResult) : Prop := b.size ≤ a.size

instance : DecidableRel vGE := fun a b => inferInstanceAs (Decidable (b.size ≤ a.size))

instance : IsTotal VResult vGE := ⟨fun a b => (Nat.le_total b.size a.size).imp id id⟩

instance : IsTrans VResult vGE := ⟨fun _ _ _ hab hbc => Nat.le_trans hbc hab⟩

/-- The "Files Needing Attention" listing of
`HAYAMLValidator.generate_report`: valid files with no sections or with
warnings, then all invalid files, displayed sorted by descending size. -/
def problem_files (valid invalid : List VResult) : List VResult :=
  List.insertionSort vGE
    ((valid.filter fun f => f.ha_sections.isEmpty || !f.warnings.isEmpty) ++ invalid)

/-- Whether an `Except` is a success. -/
def exceptOk : Except String Yaml → Bool
  | Except.ok _ => true
  | Except.error _ => false

/-! ### Concrete inputs used by the scenario theorems and witnesses -/

/-- The shared byte content of the C1 scenario. -/
def c1content : String := "homeassistant:\n  name: Home"

/-- The C1 scenario directory: `configuration.yaml` and
`config_backup.txt` with identical content. -/
def c1_files : List FSFile :=
  [{ path := "/rec/recup_dir.1/configuration.yaml", name := "configuration.yaml",
     subfolder := "recup_dir.1", size := 27, content := c1content },
   { path := "/rec/recup_dir.1/config_backup.txt", name := "config_backup.txt",
     subfolder := "recup_dir.1", size := 27, content := c1content }]

/-- Identical content for a duplicate pair. -/
def dupContent : String := "homeassistant:\n"

/-- First of two distinct paths with identical content. -/
def c5a : FSFile :=
  { path := "/rec/a.yaml", name := "a.yaml", subfolder := "rec", size := 15,
    content := dupContent }

/-- Second of two distinct paths with identical content. -/
def c5b : FSFile :=
  { path := "/rec/b.yaml", name := "b.yaml", subfolder := "rec", size := 15,
    content := dupContent }

/-- Two distinct paths with identical content. -/
def c5_files : List FSFile := [c5a, c5b]

/-- A parser outcome: the mapping with the single recognized key zone, as
the YAML parser yields on the five-character document. -/
def parse_zone : String → Except String Yaml :=
  fun _ => Except.ok (Yaml.m [(YKey.str "zone", Yaml.s "")])

/-- A parser outcome: a scalar root. -/
def parse_scalar : String → Except String Yaml :=
  fun _ => Except.ok (Yaml.s "n")

/-- A parser outcome: the mapping PyYAML yields on the document
`automation: caf` followed by the letter U+00E9 — that letter is inside
the reader's accepted printable ranges, so the parse succeeds. -/
def parse_auto : String → Except String Yaml :=
  fun _ => Except.ok (Yaml.m [(YKey.str "automation", Yaml.s "caf\xE9")])

/-- A parser outcome: a mapping with the recognized key homeassistant. -/
def parse_home : String → Except String Yaml :=
  fun _ => Except.ok (Yaml.m [(YKey.str "homeassistant", Yaml.s "x")])

/-- A parser outcome: a sequence with one mapping element holding the key
alias, as the YAML parser yields on a one-item alias list. -/
def parse_alias : String → Except String Yaml :=
  fun _ => Except.ok (Yaml.l [Yaml.m [(YKey.str "alias", Yaml.s "m")]])

/-- Content for the C2 counterexample: a recognized section whose scalar
value ends in the letter U+00E9. That code point is in the 127..255 class
of the first corruption heuristic, yet the YAML reader accepts it, so the
document is warned about and still parses to a recognized mapping. -/
def c2content : String := "automation: caf\xE9"

/-! ### Claim theorems -/

/-- C10: if the root directory exists but contains zero regular files, the
final success-rate computation of `scan_files` divides by a zero
`file_count`, raising `ZeroDivisionError`, and the run exits nonzero. -/
theorem C10_empty_scan_divzero :
    scan_files ([] : List FSFile) = Except.error "ZeroDivisionError: division by zero" ∧
    classifier_exit_code ([] : List FSFile) ≠ 0 :=
  ⟨rfl, by decide⟩

/-- C1 counterexample: in the scenario directory, the classifier reports
only `configuration.yaml` under the configuration category; the
identical-content `config_backup.txt` lands in the generic `yaml_files`
bucket (via the homeassistant content signature), so the two files are not
both reported under "configuration". -/
theorem C1_counterexample :
    ((scanFiles c1_files).ha_configs.map FileInfo.name = ["configuration.yaml"]) ∧
    ((scanFiles c1_files).yaml_files.map FileInfo.name = ["config_backup.txt"]) ∧
    ((scanFiles c1_files).yaml_files.map FileInfo.match_type
      = ["content_match_homeassistant"]) := by
  decide

/-- C1 amended: in the scenario directory, `configuration.yaml` is
reported under "configuration" and `config_backup.txt` under the generic
structured-text bucket (homeassistant content signature), and the two
files form one duplicate set of size 2 keyed by one shared content hash. -/
theorem C1_scenario :
    ((scanFiles c1_files).ha_configs.map FileInfo.name = ["configuration.yaml"]) ∧
    ((scanFiles c1_files).yaml_files.map FileInfo.name = ["config_backup.txt"]) ∧
    ((dupGroups (scanFiles c1_files)).map (fun g => g.2.map FileInfo.name)
      = [["configuration.yaml", "config_backup.txt"]]) ∧
    ((dupGroups (scanFiles c1_files)).map (fun g => g.2.length) = [2]) ∧
    (∀ g ∈ dupGroups (scanFiles c1_files), ∀ fi ∈ g.2, fi.hash = some g.1) := by
  decide

/-- C4: when a filename pattern matches the base name, classification
returns the filename-derived match for every content, so the
content-signature test never influences the result. -/
theorem C4_filename_priority (name c1 c2 : String) (p : String)
    (h : find_first ha_patterns (toLowerStr name) = some p) :
    is_likely_ha_file name c1 = (true, "filename_match_" ++ p) ∧
    is_likely_ha_file name c1 = is_likely_ha_file name c2 := by
  unfold is_likely_ha_file
  rw [h]
  exact ⟨rfl, rfl⟩

/-- C4 witness: `Configuration.yaml` matches the configuration filename
pattern and is classified by filename even though its content carries an
automation signature. -/
theorem C4_witness :
    find_first ha_patterns (toLowerStr "Configuration.yaml") = some "configuration" ∧
    (is_likely_ha_file "Configuration.yaml" "- alias: x"
        = (true, "filename_match_configuration") ∧
      is_likely_ha_file "Configuration.yaml" "- alias: x"
        = is_likely_ha_file "Configuration.yaml" "") :=
  ⟨by decide, C4_filename_priority "Configuration.yaml" "- alias: x" "" "configuration" (by decide)⟩

/-- C9: the prioritized list is the configuration lines, then automation
lines, then secrets lines, then generic-structured lines, each line a
priority tag followed by the path, and each group a permutation of its
bucket sorted by descending size. -/
theorem C9_priority_list (st : ScanState) :
    ∃ l1 l2 l3 l4 : List FileInfo,
      save_file_list st =
        l1.map (fun fi => "HIGH_PRIORITY: " ++ fi.path) ++
        l2.map (fun fi => "AUTOMATION: " ++ fi.path) ++
        l3.map (fun fi => "SECRETS: " ++ fi.path) ++
        l4.map (fun fi => "YAML: " ++ fi.path) ∧
      List.Perm l1 st.ha_configs ∧ List.Sorted fiGE l1 ∧
      List.Perm l2 st.automations ∧ List.Sorted fiGE l2 ∧
      List.Perm l3 st.secrets ∧ List.Sorted fiGE l3 ∧
      List.Perm l4 st.yaml_files ∧ List.Sorted fiGE l4 := by
  refine ⟨sortFI st.ha_configs, sortFI st.automations, sortFI st.secrets,
    sortFI st.yaml_files, rfl, ?_, ?_, ?_, ?_, ?_, ?_, ?_, ?_⟩ <;>
    first
      | exact List.perm_insertionSort fiGE _
      | exact List.sorted_insertionSort fiGE _

/-! ### Duplicate-index lemmas -/

/-- Inserting a record under a key makes it a member of that key's group. -/
theorem mem_lookupD_dupInsert_self (d : List (String × List FileInfo)) (k : String)
    (fi : FileInfo) : fi ∈ lookupD (dupInsert d k fi) k := by
  induction d with
  | nil => simp [dupInsert, lookupD]
  | cons head tail ih =>
    obtain ⟨k2, l⟩ := head
    cases h : (k2 == k) <;> simp [dupInsert, lookupD, h, ih]

/-- Groups only grow under insertion. -/
theorem mem_lookupD_dupInsert (d : List (String × List FileInfo)) (k k2 : String)
    (x fi : FileInfo) (h : x ∈ lookupD d k) :
    x ∈ lookupD (dupInsert d k2 fi) k := by
  induction d with
  | nil => simp [lookupD] at h
  | cons head tail ih =>
    obtain ⟨k3, l⟩ := head
    cases h3 : (k3 == k2) <;> cases h4 : (k3 == k) <;>
      simp [dupInsert, lookupD, h3, h4] at h ⊢ <;> simp_all

/-- Bucketing a record never touches the duplicate index. -/
theorem bucketAdd_duplicates (st : ScanState) (fi : FileInfo) :
    (bucketAdd st fi).duplicates = st.duplicates := by
  unfold bucketAdd
  split
  · rfl
  split
  · rfl
  split
  · rfl
  split <;> rfl

/-- One scan step never removes a record from a duplicate group. -/
theorem lookupD_scanStep_mono (st : ScanState) (f : FSFile) (k : String) (x : FileInfo)
    (h : x ∈ lookupD st.duplicates k) :
    x ∈ lookupD (scanStep st f).duplicates k := by
  simp only [scanStep]
  split
  · exact h
  · split
    · split
      · split
        · rw [bucketAdd_duplicates]
          exact mem_lookupD_dupInsert _ _ _ _ _ h
        · rw [bucketAdd_duplicates]
          exact h
      · split
        · exact h
        · exact h
    · exact h

/-- A modelled digest is never falsy. -/
theorem md5Hex_truthy (s : String) : hashTruthy (some (md5Hex s)) = true := by
  have hne : md5Hex s ≠ "" := by
    intro he
    have : (md5Hex s).data = ("" : String).data := by rw [he]
    simp [md5Hex, String.data_append] at this
  simp [hashTruthy, hne]

/-- A positively classified file's record is put into the duplicate group
keyed by the hash of its content. -/
theorem scanStep_adds_dup (st : ScanState) (f : FSFile) (h : processedHA f = true) :
    mkInfo f ∈ lookupD (scanStep st f).duplicates (md5Hex f.content) := by
  have h1 : ¬ (10 * 1024 * 1024 < f.size) := by
    have := (Bool.and_eq_true _ _).mp ((Bool.and_eq_true _ _).mp h).1
    exact Nat.not_lt.mpr (of_decide_eq_true this.1)
  have h2 : is_text_candidate f.name = true :=
    ((Bool.and_eq_true _ _).mp ((Bool.and_eq_true _ _).mp h).1).2
  have h3 : (is_likely_ha_file f.name (strTake f.content 2048)).fst = true :=
    ((Bool.and_eq_true _ _).mp h).2
  have hhash : (mkInfo f).hash = some (md5Hex f.content) := rfl
  simp only [scanStep, if_neg h1, h2, if_pos, h3, if_true, hhash, md5Hex_truthy]
  rw [bucketAdd_duplicates]
  exact mem_lookupD_dupInsert_self _ _ _

/-- Folding further scan steps preserves duplicate-group membership. -/
theorem lookupD_scanFold_mono (files : List FSFile) (st : ScanState) (k : String)
    (x : FileInfo) (h : x ∈ lookupD st.duplicates k) :
    x ∈ lookupD (files.foldl scanStep st).duplicates k := by
  induction files generalizing st with
  | nil => exact h
  | cons g rest ih => exact ih _ (lookupD_scanStep_mono st g k x h)

/-- Every processed file of the walk ends up in the duplicate group keyed
by its content hash. -/
theorem scan_mem_dup (files : List FSFile) (st : ScanState) (f : FSFile)
    (hf : f ∈ files) (hp : processedHA f = true) :
    mkInfo f ∈ lookupD (files.foldl scanStep st).duplicates (md5Hex f.content) := by
  induction files generalizing st with
  | nil => cases hf
  | cons g rest ih =>
    rcases List.mem_cons.mp hf with rfl | hmem
    · exact lookupD_scanFold_mono rest _ _ _ (scanStep_adds_dup st f hp)
    · exact ih _ hmem

/-- C5: two distinct classified paths with identical byte content land in
the same duplicate group under the same content-hash key, and every group
shown in the duplicates report has at least two members. -/
theorem C5_duplicates (files : List FSFile) (f g : FSFile)
    (hf : f ∈ files) (hg : g ∈ files) (_hpaths : f.path ≠ g.path)
    (hcontent : f.content = g.content)
    (hpf : processedHA f = true) (hpg : processedHA g = true) :
    mkInfo f ∈ lookupD (scanFiles files).duplicates (md5Hex f.content) ∧
    mkInfo g ∈ lookupD (scanFiles files).duplicates (md5Hex f.content) ∧
    ∀ kv ∈ dupGroups (scanFiles files), 2 ≤ kv.2.length := by
  refine ⟨scan_mem_dup files initState f hf hpf, ?_, ?_⟩
  · rw [hcontent]
    exact scan_mem_dup files initState g hg hpg
  · intro kv hkv
    have := List.of_mem_filter hkv
    simpa using this

/-- C5 witness: the two-file duplicate scenario instantiates the theorem. -/
theorem C5_witness :
    (c5a ∈ c5_files ∧ c5b ∈ c5_files ∧ c5a.path ≠ c5b.path ∧
      c5a.content = c5b.content ∧ processedHA c5a = true ∧ processedHA c5b = true) ∧
    (mkInfo c5a ∈ lookupD (scanFiles c5_files).duplicates (md5Hex c5a.content) ∧
      mkInfo c5b ∈ lookupD (scanFiles c5_files).duplicates (md5Hex c5a.content) ∧
      ∀ kv ∈ dupGroups (scanFiles c5_files), 2 ≤ kv.2.length) :=
  ⟨⟨by decide, by decide, by decide, rfl, by decide, by decide⟩,
    C5_duplicates c5_files c5a c5b (by decide) (by decide) (by decide) rfl
      (by decide) (by decide)⟩

/-- C2 counterexample: a file that is valid and carries a recognized
section, but has a warning (here the corruption heuristic), still appears
in the needing-attention listing, so that listing is not exactly the
valid-but-unrecognized files plus the invalid files. -/
theorem C2_counterexample :
    (validate_file parse_auto "/f/auto.yaml" c2content).valid = true ∧
    (validate_file parse_auto "/f/auto.yaml" c2content).ha_sections = ["automation"] ∧
    (validate_file parse_auto "/f/auto.yaml" c2content).warnings ≠ [] ∧
    problem_files [validate_file parse_auto "/f/auto.yaml" c2content] []
      = [validate_file parse_auto "/f/auto.yaml" c2content] := by
  decide

/-- C2 amended: the needing-attention listing is a permutation, sorted by
descending byte size, of the valid files that have no recognized section
or at least one warning, plus all invalid files. -/
theorem C2_attention (valid invalid : List VResult) :
    List.Perm (problem_files valid invalid)
      ((valid.filter fun f => f.ha_sections.isEmpty || !f.warnings.isEmpty) ++ invalid) ∧
    List.Sorted vGE (problem_files valid invalid) ∧
    ∀ f, f ∈ problem_files valid invalid ↔
      ((f ∈ valid ∧ (f.ha_sections = [] ∨ f.warnings ≠ [])) ∨ f ∈ invalid) := by
  refine ⟨List.perm_insertionSort vGE _, List.sorted_insertionSort vGE _, fun f => ?_⟩
  rw [problem_files, (List.perm_insertionSort vGE _).mem_iff]
  simp [List.mem_filter, List.isEmpty_iff]

/-- C3 counterexample: on all-digit content both the digits-and-whitespace
heuristic and the no-letters heuristic match, yet only one shared warning
is appended (the loop breaks at the first match), not one per heuristic. -/
theorem C3_counterexample :
    only_digits_space "1234567890123" = true ∧
    no_letters "1234567890123" = true ∧
    (validate_file parse_scalar "/f/n.yaml" "1234567890123").warnings
      = ["Contains suspicious patterns - may be corrupted"] := by
  decide

/-- C3 amended: the corruption flag is set iff one of the three heuristics
matches; a single shared warning is appended exactly once when any of them
matches; and the corruption check never influences whether the parse is
attempted: validity equals (content not too small) and (parse succeeded). -/
theorem C3_corruption (parse : String → Except String Yaml) (path content : String) :
    ((validate_file parse path content).likely_corrupted
      = (contains_nonprintable content || only_digits_space content || no_letters content)) ∧
    ((validate_file parse path content).warnings.count
        "Contains suspicious patterns - may be corrupted"
      = if contains_nonprintable content || only_digits_space content || no_letters content
          then 1 else 0) ∧
    ((validate_file parse path content).valid
      = (decide (10 ≤ (pyStrip content).length) && exceptOk (parse content))) := by
  have hc : (corruption_patterns.any fun p => p content)
      = (contains_nonprintable content || only_digits_space content || no_letters content) := by
    simp [corruption_patterns, Bool.or_assoc]
  by_cases h10 : (pyStrip content).length < 10
  · have hd : decide (10 ≤ (pyStrip content).length) = false := by
      simp [Nat.not_le.mpr h10]
    cases hb : (contains_nonprintable content || only_digits_space content || no_letters content) <;>
      simp [validate_file, hc, hb, if_pos h10, hd]
  · have h10' : 10 ≤ (pyStrip content).length := Nat.not_lt.mp h10
    have hd : decide (10 ≤ (pyStrip content).length) = true := by simp [h10']
    rcases hp : parse content with err | y
    · cases hb : (contains_nonprintable content || only_digits_space content || no_letters content) <;>
        simp [validate_file, hc, hb, if_neg h10, hp, hd, exceptOk, List.count_append] <;>
        split <;> first | decide | (split <;> decide)
    · cases y with
      | m pairs =>
        cases hb : (contains_nonprintable content || only_digits_space content || no_letters content) <;>
          simp [validate_file, hc, hb, if_neg h10, hp, hd, exceptOk, List.count_append] <;>
          split <;> decide
      | l items =>
        cases hb : (contains_nonprintable content || only_digits_space content || no_letters content) <;>
          simp only [validate_file, hc, hb, if_neg h10, hp, hd, exceptOk] <;>
          split <;>
          simp [List.count_append]
      | s v =>
        cases hb : (contains_nonprintable content || only_digits_space content || no_letters content) <;>
          simp [validate_file, hc, hb, if_neg h10, hp, hd, exceptOk, List.count_append]

/-- C6: a readable file whose trimmed content is shorter than 10
characters gets the too-small warning, stays invalid, and keeps a null
error field (the parse is skipped). -/
theorem C6_too_small (parse : String → Except String Yaml) (path content : String)
    (h : (pyStrip content).length < 10) :
    "File too small to be meaningful" ∈ (validate_file parse path content).warnings ∧
    (validate_file parse path content).valid = false ∧
    (validate_file parse path content).error = none := by
  simp [validate_file, if_pos h]

/-- C6 witness: three-character content. -/
theorem C6_witness :
    (pyStrip "abc").length < 10 ∧
    ("File too small to be meaningful" ∈ (validate_file parse_scalar "/f/s.yaml" "abc").warnings ∧
      (validate_file parse_scalar "/f/s.yaml" "abc").valid = false ∧
      (validate_file parse_scalar "/f/s.yaml" "abc").error = none) :=
  ⟨by decide, C6_too_small parse_scalar "/f/s.yaml" "abc" (by decide)⟩

/-- C7 counterexample: the five-character mapping document with the
recognized top-level key zone parses to a recognized mapping, yet the
validator reports it invalid with no sections, because the too-small check
skips the parse. -/
theorem C7_counterexample :
    parse_zone "zone:" = Except.ok (Yaml.m [(YKey.str "zone", Yaml.s "")]) ∧
    toLowerStr "zone" ∈ ha_sections ∧
    (validate_file parse_zone "/f/zone.yaml" "zone:").valid = false ∧
    (validate_file parse_zone "/f/zone.yaml" "zone:").ha_sections = [] :=
  ⟨rfl, by decide, by decide, by decide⟩

/-- C7 amended: a file whose trimmed content has at least 10 characters
and which parses into a mapping with a top-level string key that equals a
vocabulary entry case-insensitively is reported valid with that key in its
recognized-sections list. -/
theorem C7_recognized (parse : String → Except String Yaml) (path content : String)
    (pairs : List (YKey × Yaml)) (k : String)
    (h1 : 10 ≤ (pyStrip content).length)
    (h2 : parse content = Except.ok (Yaml.m pairs))
    (h3 : YKey.str k ∈ pairs.map Prod.fst)
    (h4 : toLowerStr k ∈ ha_sections) :
    (validate_file parse path content).valid = true ∧
    k ∈ (validate_file parse path content).ha_sections := by
  have h10 : ¬ (pyStrip content).length < 10 := Nat.not_lt.mpr h1
  obtain ⟨p, hp, hpk⟩ := List.mem_map.mp h3
  constructor
  · simp [validate_file, if_neg h10, h2]
  · simp only [validate_file, if_neg h10, h2]
    refine List.mem_filterMap.mpr ⟨p, hp, ?_⟩
    rw [hpk]
    simp [h4]

/-- C7 witness: a mapping document with the homeassistant key. -/
theorem C7_witness :
    (10 ≤ (pyStrip "homeassistant: x").length ∧
      parse_home "homeassistant: x" = Except.ok (Yaml.m [(YKey.str "homeassistant", Yaml.s "x")]) ∧
      YKey.str "homeassistant" ∈ ([(YKey.str "homeassistant", Yaml.s "x")].map Prod.fst) ∧
      toLowerStr "homeassistant" ∈ ha_sections) ∧
    ((validate_file parse_home "/f/h.yaml" "homeassistant: x").valid = true ∧
      "homeassistant" ∈ (validate_file parse_home "/f/h.yaml" "homeassistant: x").ha_sections) :=
  ⟨⟨by decide, rfl, by decide, by decide⟩,
    C7_recognized parse_home "/f/h.yaml" "homeassistant: x"
      [(YKey.str "homeassistant", Yaml.s "x")] "homeassistant"
      (by decide) rfl (by decide) (by decide)⟩

/-- C8 counterexample: the eight-character sequence document with an
alias mapping element parses to an alias list, yet the validator reports
no sections (and invalid), because the too-small check skips the parse. -/
theorem C8_counterexample :
    parse_alias "- alias:" = Except.ok (Yaml.l [Yaml.m [(YKey.str "alias", Yaml.s "m")]]) ∧
    ([Yaml.m [(YKey.str "alias", Yaml.s "m")]].any has_alias = true) ∧
    (validate_file parse_alias "/f/x.yaml" "- alias:").ha_sections = [] ∧
    (validate_file parse_alias "/f/x.yaml" "- alias:").valid = false :=
  ⟨rfl, by decide, by decide, by decide⟩

/-- C8 amended: a file whose trimmed content has at least 10 characters
and which parses into a sequence with at least one mapping element holding
the key alias is tagged with the synthetic automation-list section and
never receives the unconfirmed-list-shape warning. -/
theorem C8_automation_list (parse : String → Except String Yaml) (path content : String)
    (items : List Yaml)
    (h1 : 10 ≤ (pyStrip content).length)
    (h2 : parse content = Except.ok (Yaml.l items))
    (h3 : items.any has_alias = true) :
    (validate_file parse path content).ha_sections = ["automation_list"] ∧
    "List format - check if valid HA structure" ∉ (validate_file parse path content).warnings := by
  have h10 : ¬ (pyStrip content).length < 10 := Nat.not_lt.mpr h1
  cases hb : (corruption_patterns.any fun p => p content) <;>
    simp [validate_file, if_neg h10, h2, h3, hb]

/-- C8 witness: a one-element alias list document. -/
theorem C8_witness :
    (10 ≤ (pyStrip "- alias: morning").length ∧
      parse_alias "- alias: morning" = Except.ok (Yaml.l [Yaml.m [(YKey.str "alias", Yaml.s "m")]]) ∧
      [Yaml.m [(YKey.str "alias", Yaml.s "m")]].any has_alias = true) ∧
    ((validate_file parse_alias "/f/a.yaml" "- alias: morning").ha_sections = ["automation_list"] ∧
      "List format - check if valid HA structure"
        ∉ (validate_file parse_alias "/f/a.yaml" "- alias: morning").warnings) :=
  ⟨⟨by decide, rfl, by decide⟩,
    C8_automation_list parse_alias "/f/a.yaml" "- alias: morning"
      [Yaml.m [(YKey.str "alias", Yaml.s "m")]] (by decide) rfl (by decide)⟩
